import Mathlib

/-!
Verification of the Astation relay/coordination service core.

The definitions below are a shallow embedding of the Rust sources:

* `src/api-server/src/rtc_session.rs` and `src/relay-server/src/rtc_session.rs`
  (the two files share the `RtcSessionStore` verbatim; the route handlers
  differ and both are embedded),
* `src/relay-server/src/auth.rs`, `src/relay-server/src/routes.rs`,
  `src/api-server/src/session_store.rs` (OTP sessions),
* `src/relay-server/src/relay.rs` (pair rooms),
* `src/relay-server/src/voice_session.rs` (voice sessions).

Conventions: Rust `HashMap<String, V>` is embedded as `String → Option V`;
`DateTime<Utc>` / `Instant` as `Int` timestamps; random generators as
explicit arguments (lists of drawn values); a body executed under a
per-entry write lock as a single atomic Lean function.  `u32` arithmetic
carries an explicit `% 2 ^ 32`.
-/

namespace Astation

/-- Update of a string-keyed map, as `HashMap::insert` (replaces any
existing entry). -/
def mapUpdate {β : Type} (m : String → Option β) (k : String) (v : β) :
    String → Option β :=
  fun x => if x = k then some v else m x

/-- Removal from a string-keyed map, as `HashMap::remove`. -/
def mapRemove {β : Type} (m : String → Option β) (k : String) :
    String → Option β :=
  fun x => if x = k then none else m x

/-- The empty string-keyed map. -/
def mapEmpty {β : Type} : String → Option β := fun _ => none

/-! ## RTC session registry (`rtc_session.rs`) -/

/-- A participant entry, from `struct Participant`. -/
structure Participant where
  uid : Nat
  display_name : Option String
  joined_at : Int
deriving Repr, DecidableEq

/-- The mutable per-session record, from `struct RtcSessionInner`
(identifier and expiry fields that no claim touches are kept;
`uid_counter` is the `AtomicU32`, embedded as a `Nat` reduced mod
`2 ^ 32` on increment). -/
structure RtcSessionInner where
  id : String
  app_id : String
  channel : String
  token : String
  uid_counter : Nat
  host_uid : Nat
  created_at : Int
  expires_at : Int
  participants : List Participant
deriving Repr, DecidableEq

/-- Join response payload, from `struct JoinRtcSessionResponse`. -/
structure JoinRtcSessionResponse where
  app_id : String
  channel : String
  token : String
  uid : Nat
  name : String
deriving Repr, DecidableEq

/-- The error message produced by a join on a full session
(`rtc_session.rs`, `RtcSessionStore::join`). -/
def sessionFullMsg : String := "Session is full (maximum 8 participants)"

/-- The body of `RtcSessionStore::join` that runs while the per-session
write lock is held: the cap check, the `fetch_add` on `uid_counter` and
the participant append are one atomic step, exactly as in the source. -/
def joinSession (inner : RtcSessionInner) (name : String) (now : Int) :
    Except String (JoinRtcSessionResponse × RtcSessionInner) :=
  if inner.participants.length ≥ 8 then
    .error sessionFullMsg
  else
    let uid := inner.uid_counter
    let inner2 := { inner with
      uid_counter := (inner.uid_counter + 1) % 2 ^ 32,
      participants :=
        inner.participants ++ [⟨uid, some name, now⟩] }
    .ok (⟨inner.app_id, inner.channel, inner.token, uid, name⟩, inner2)

/-- A fresh session as built by `RtcSessionStore::create`: counter at
1000, no participants. -/
def mkFreshRtc (id app ch tok : String) (host_uid : Nat) (now : Int) :
    RtcSessionInner :=
  { id := id, app_id := app, channel := ch, token := tok,
    uid_counter := 1000, host_uid := host_uid,
    created_at := now, expires_at := now + 4 * 3600, participants := [] }

/-- A burst of joins against one session: since every join body runs
under the session write lock, any concurrent burst executes as some
serialisation, i.e. as this sequential fold over the (arbitrarily
ordered) list of joiner names. -/
def joinMany (inner : RtcSessionInner) (names : List String) (now : Int) :
    List (Except String JoinRtcSessionResponse) × RtcSessionInner :=
  match names with
  | [] => ([], inner)
  | n :: rest =>
    match joinSession inner n now with
    | .ok (r, inner2) =>
      let rec_ := joinMany inner2 rest now
      (.ok r :: rec_.1, rec_.2)
    | .error e =>
      let rec_ := joinMany inner rest now
      (.error e :: rec_.1, rec_.2)

/-- Uids of the successful joins, in call order. -/
def okUids (rs : List (Except String JoinRtcSessionResponse)) : List Nat :=
  rs.filterMap (fun r => match r with
    | .ok j => some j.uid
    | .error _ => none)

/-- Substring test, embedding Rust `str::contains` (all strings involved
are ASCII). -/
def containsSubstring (s pat : String) : Bool :=
  decide (pat.toList <:+: s.toList)

/-- HTTP statuses produced by the embedded handlers. -/
inductive HttpStatus where
  | ok
  | created
  | badRequest
  | unauthorized
  | notFound
  | conflict
  | gone
  | internalServerError
deriving Repr, DecidableEq

/-- Status chosen by `join_rtc_session_handler` for a join error string. -/
def joinErrorStatus (error : String) : HttpStatus :=
  if containsSubstring error "not found" then .notFound
  else if containsSubstring error "full" then .conflict
  else .internalServerError

theorem okUids_cons_ok (j : JoinRtcSessionResponse)
    (l : List (Except String JoinRtcSessionResponse)) :
    okUids (.ok j :: l) = j.uid :: okUids l := rfl

theorem okUids_cons_error (e : String)
    (l : List (Except String JoinRtcSessionResponse)) :
    okUids (.error e :: l) = okUids l := rfl

/-- Main induction for `joinMany`:  from any session state with at most 8
participants (and a counter far from `u32` wrap-around, true of every
reachable state), a burst of joins admits exactly enough successes to
fill the session, with contiguous uids from the current counter. -/
theorem joinMany_spec (names : List String) (inner : RtcSessionInner) (now : Int)
    (hlen : inner.participants.length ≤ 8)
    (hc : inner.uid_counter + (8 - inner.participants.length) < 2 ^ 32) :
    (joinMany inner names now).1.length = names.length
    ∧ okUids (joinMany inner names now).1
        = List.range' inner.uid_counter
            (min names.length (8 - inner.participants.length))
    ∧ (∀ s, Except.error s ∈ (joinMany inner names now).1 → s = sessionFullMsg)
    ∧ (joinMany inner names now).2.participants.length
        = min 8 (inner.participants.length + names.length) := by
  induction names generalizing inner with
  | nil =>
    refine ⟨rfl, ?_, ?_, ?_⟩
    · simp [joinMany, okUids]
    · intro s hs
      simp [joinMany] at hs
    · simp [joinMany]
      omega
  | cons n rest ih =>
    by_cases hfull : inner.participants.length ≥ 8
    · have h8 : inner.participants.length = 8 := le_antisymm hlen hfull
      have hstep : joinMany inner (n :: rest) now
          = (.error sessionFullMsg :: (joinMany inner rest now).1,
             (joinMany inner rest now).2) := by
        simp [joinMany, joinSession, if_pos hfull]
      obtain ⟨ih1, ih2, ih3, ih4⟩ := ih inner hlen hc
      rw [hstep]
      refine ⟨by simpa using ih1, ?_, ?_, ?_⟩
      · rw [okUids_cons_error, ih2, h8]
        simp
      · intro s hs
        rcases List.mem_cons.mp hs with h | h
        · simpa using h
        · exact ih3 s h
      · rw [ih4, h8]
        simp
    · have hlt : inner.participants.length < 8 := by omega
      have hmod : (inner.uid_counter + 1) % 2 ^ 32 = inner.uid_counter + 1 :=
        Nat.mod_eq_of_lt (by omega)
      set inner2 : RtcSessionInner := { inner with
        uid_counter := (inner.uid_counter + 1) % 2 ^ 32,
        participants :=
          inner.participants ++ [⟨inner.uid_counter, some n, now⟩] }
        with hinner2
      have hstep : joinMany inner (n :: rest) now
          = (.ok ⟨inner.app_id, inner.channel, inner.token, inner.uid_counter, n⟩
               :: (joinMany inner2 rest now).1,
             (joinMany inner2 rest now).2) := by
        simp [joinMany, joinSession, if_neg hfull, hinner2]
      have hplen2 : inner2.participants.length = inner.participants.length + 1 := by
        simp [hinner2]
      have hcnt2 : inner2.uid_counter = inner.uid_counter + 1 := hmod
      obtain ⟨ih1, ih2, ih3, ih4⟩ := ih inner2 (by omega) (by rw [hcnt2, hplen2]; omega)
      rw [hstep]
      refine ⟨by simpa using ih1, ?_, ?_, ?_⟩
      · rw [okUids_cons_ok, ih2, hcnt2, hplen2]
        have hmin : min (n :: rest).length (8 - inner.participants.length)
            = min rest.length (8 - (inner.participants.length + 1)) + 1 := by
          simp only [List.length_cons]
          omega
        rw [hmin, List.range'_succ]
      · intro s hs
        rcases List.mem_cons.mp hs with h | h
        · cases h
        · exact ih3 s h
      · rw [ih4, hplen2]
        simp only [List.length_cons]
        omega

/-- C1: for a fresh RTC session, a burst of N joins (in any serialisation
order; each join body runs atomically under the session write lock, cap
check, counter increment and participant append included, as in
`RtcSessionStore::join`) yields exactly min(N, 8) successes whose uids are
exactly 1000, ..., 1000 + min(N, 8) - 1 — contiguous, strictly
increasing, distinct; every excess join fails with the "Session is full"
message, which `join_rtc_session_handler` maps to HTTP 409 Conflict; and
the participant list never exceeds 8 entries (the burst list is
universally quantified, so every intermediate state is the final state of
some prefix burst and satisfies the bound). -/
theorem c1_rtc_join_burst (id app ch tok : String) (host_uid : Nat)
    (created : Int) (names : List String) (now : Int) :
    (okUids (joinMany (mkFreshRtc id app ch tok host_uid created) names now).1).length
        = min names.length 8
    ∧ okUids (joinMany (mkFreshRtc id app ch tok host_uid created) names now).1
        = List.range' 1000 (min names.length 8)
    ∧ List.Pairwise (· < ·)
        (okUids (joinMany (mkFreshRtc id app ch tok host_uid created) names now).1)
    ∧ (okUids (joinMany (mkFreshRtc id app ch tok host_uid created) names now).1).Nodup
    ∧ (joinMany (mkFreshRtc id app ch tok host_uid created) names now).1.length
        = names.length
    ∧ (∀ s, Except.error s
          ∈ (joinMany (mkFreshRtc id app ch tok host_uid created) names now).1
          → s = sessionFullMsg ∧ joinErrorStatus s = .conflict)
    ∧ (joinMany (mkFreshRtc id app ch tok host_uid created) names now).2.participants.length
        = min names.length 8
    ∧ (joinMany (mkFreshRtc id app ch tok host_uid created) names now).2.participants.length
        ≤ 8 := by
  obtain ⟨h1, h2, h3, h4⟩ :=
    joinMany_spec names (mkFreshRtc id app ch tok host_uid created) now
      (by simp [mkFreshRtc]) (by simp [mkFreshRtc])
  have hcnt : (mkFreshRtc id app ch tok host_uid created).uid_counter = 1000 := rfl
  have hpl : (mkFreshRtc id app ch tok host_uid created).participants.length = 0 := rfl
  rw [hcnt, hpl] at h2
  rw [hpl] at h4
  have h2' : okUids (joinMany (mkFreshRtc id app ch tok host_uid created) names now).1
      = List.range' 1000 (min names.length 8) := by
    simpa using h2
  refine ⟨?_, h2', ?_, ?_, h1, ?_, ?_, ?_⟩
  · rw [h2']
    simp
  · rw [h2']
    exact List.pairwise_lt_range' 1000 (min names.length 8)
  · rw [h2']
    exact List.nodup_range' 1000 (min names.length 8)
  · intro s hs
    refine ⟨h3 s hs, ?_⟩
    rw [h3 s hs]
    decide
  · omega
  · omega

example :
    okUids (joinMany (mkFreshRtc "i" "a" "c" "t" 1 0) ["x", "y"] 0).1
      = [1000, 1001] := by decide

example :
    (joinMany (mkFreshRtc "i" "a" "c" "t" 1 0)
      ["1", "2", "3", "4", "5", "6", "7", "8", "9", "10"] 0).1.length = 10
    ∧ okUids (joinMany (mkFreshRtc "i" "a" "c" "t" 1 0)
      ["1", "2", "3", "4", "5", "6", "7", "8", "9", "10"] 0).1
      = [1000, 1001, 1002, 1003, 1004, 1005, 1006, 1007] := by decide

theorem c1_rtc_join_burst_witness :
    okUids (joinMany (mkFreshRtc "i1" "a1" "c1" "t1" 7 0)
      ["u1", "u2", "u3", "u4", "u5", "u6", "u7", "u8", "u9", "u10"] 0).1
      = [1000, 1001, 1002, 1003, 1004, 1005, 1006, 1007] := by
  rw [(c1_rtc_join_burst "i1" "a1" "c1" "t1" 7 0
    ["u1", "u2", "u3", "u4", "u5", "u6", "u7", "u8", "u9", "u10"] 0).2.1]
  decide

/-! ## OTP sessions (`auth.rs`, `routes.rs`, `session_store.rs`) -/

/-- Session status, from `enum SessionStatus` (serde lowercase names kept
in `statusName`). -/
inductive SessionStatus where
  | pending
  | granted
  | denied
  | expired
deriving Repr, DecidableEq

/-- Lowercase serialised name of a status, as produced by serde with
`rename_all = "lowercase"`. -/
def statusName (s : SessionStatus) : String :=
  match s with
  | .pending => "pending"
  | .granted => "granted"
  | .denied => "denied"
  | .expired => "expired"

/-- An OTP session record, from `struct Session` in `auth.rs`. -/
structure Session where
  id : String
  otp : String
  hostname : String
  status : SessionStatus
  token : Option String
  created_at : Int
  expires_at : Int
deriving Repr, DecidableEq

/-- Embeds `auth::validate_otp`: true iff the otp matches and the session has not
expired. -/
def validate_otp (session : Session) (otp : String) (now : Int) : Bool :=
  if session.otp ≠ otp then false
  else if now > session.expires_at then false
  else true

/-- One hex digit as produced by the Rust `{:02x}` format (lowercase). -/
def hexDigit (n : Nat) : Char :=
  if n < 10 then Char.ofNat (48 + n) else Char.ofNat (97 + (n - 10))

/-- The two lowercase hex digits of one byte, `format!("{:02x}", b)`. -/
def byteToHex (b : Fin 256) : List Char :=
  [hexDigit (b.val / 16), hexDigit (b.val % 16)]

/-- Embeds `auth::generate_session_token`: the 32 random bytes are an explicit
argument; the token is their concatenated `{:02x}` rendering. -/
def generate_session_token (bytes : List (Fin 256)) : String :=
  String.mk (List.flatten (bytes.map byteToHex))

/-- The sixteen lowercase hex characters. -/
def hexCharList : List Char := "0123456789abcdef".toList

theorem hexDigit_mem_of_lt {n : Nat} (h : n < 16) : hexDigit n ∈ hexCharList := by
  have hall : ∀ i : Fin 16, hexDigit i.val ∈ hexCharList := by decide
  exact hall ⟨n, h⟩

theorem generate_session_token_length (bytes : List (Fin 256)) :
    (generate_session_token bytes).length = 2 * bytes.length := by
  have : (List.flatten (bytes.map byteToHex)).length = 2 * bytes.length := by
    induction bytes with
    | nil => rfl
    | cons b bs ih =>
      simp only [List.map_cons, List.flatten_cons, List.length_append, ih, byteToHex,
        List.length_cons, List.length_nil]
      omega
  simpa [generate_session_token] using this

theorem generate_session_token_hex (bytes : List (Fin 256)) :
    ∀ c ∈ (generate_session_token bytes).toList, c ∈ hexCharList := by
  intro c hc
  have hc2 : c ∈ List.flatten (bytes.map byteToHex) := by
    simpa [generate_session_token] using hc
  rw [List.mem_flatten] at hc2
  obtain ⟨l, hl, hcl⟩ := hc2
  rw [List.mem_map] at hl
  obtain ⟨b, _, rfl⟩ := hl
  have hb : b.val < 256 := b.isLt
  simp only [byteToHex, List.mem_cons, List.not_mem_nil, or_false] at hcl
  rcases hcl with h | h
  · exact h ▸ hexDigit_mem_of_lt (by omega)
  · exact h ▸ hexDigit_mem_of_lt (Nat.mod_lt _ (by omega))

/-- Outcome of the grant handler, by HTTP error kind. -/
inductive GrantOutcome where
  | notFound
  | conflict (msg : String)
  | gone
  | unauthorized
  | granted (token : String)
deriving Repr, DecidableEq

/-- Embeds `grant_session_handler` from `routes.rs`: fetch the session; Conflict
if not Pending; then `validate_otp`; on validation failure, Gone if past
expiry else Unauthorized; on success set status = Granted with a fresh
token and store the update.  The random token bytes are an explicit
argument. -/
def grant_session_handler (store : String → Option Session) (id otp : String)
    (now : Int) (tokenBytes : List (Fin 256)) :
    GrantOutcome × (String → Option Session) :=
  match store id with
  | none => (.notFound, store)
  | some session =>
    if session.status ≠ .pending then
      (.conflict ("Session is already " ++ statusName session.status), store)
    else if validate_otp session otp now = false then
      if now > session.expires_at then
        (.gone, store)
      else
        (.unauthorized, store)
    else
      let tok := generate_session_token tokenBytes
      (.granted tok,
       mapUpdate store id { session with status := .granted, token := some tok })

/-- A concrete Pending session whose expiry has passed at time 200. -/
def c2Session : Session :=
  { id := "sess-1", otp := "12345678", hostname := "host-a",
    status := .pending, token := none, created_at := 0, expires_at := 100 }

/-- C2 counterexample: on a Pending session past its expiry, a grant with
a WRONG otp returns Gone (410), not Unauthorized (401) — the handler
checks expiry inside the invalid-otp branch, so expiry dominates the otp
mismatch, contrary to the claimed check order. -/
theorem c2_counterexample_expired_wrong_otp :
    (grant_session_handler (mapUpdate mapEmpty "sess-1" c2Session)
        "sess-1" "00000000" 200 []).1 = .gone
    ∧ (grant_session_handler (mapUpdate mapEmpty "sess-1" c2Session)
        "sess-1" "00000000" 200 []).1 ≠ .unauthorized := by
  constructor
  · decide
  · decide

/-- C2 (amended): grant on an existing session checks, in order: status ≠
Pending fails Conflict; then `validate_otp` (otp match AND not expired);
on validation failure the result is Gone when now > expires_at (whatever
the otp) and Unauthorized otherwise; on success (matching otp, not
expired) it sets status = Granted with a fresh token, which for 32 random
bytes is a 64-character lowercase-hex string.  Failure paths leave the
store untouched. -/
theorem c2_grant_check_order (store : String → Option Session)
    (id otp : String) (now : Int) (bytes : List (Fin 256)) (session : Session)
    (hs : store id = some session) :
    (session.status ≠ .pending →
      (grant_session_handler store id otp now bytes).1
          = .conflict ("Session is already " ++ statusName session.status)
      ∧ (grant_session_handler store id otp now bytes).2 = store)
    ∧ (session.status = .pending → now > session.expires_at →
      (grant_session_handler store id otp now bytes).1 = .gone
      ∧ (grant_session_handler store id otp now bytes).2 = store)
    ∧ (session.status = .pending → ¬ now > session.expires_at →
        otp ≠ session.otp →
      (grant_session_handler store id otp now bytes).1 = .unauthorized
      ∧ (grant_session_handler store id otp now bytes).2 = store)
    ∧ (session.status = .pending → ¬ now > session.expires_at →
        otp = session.otp →
      (grant_session_handler store id otp now bytes).1
          = .granted (generate_session_token bytes)
      ∧ (grant_session_handler store id otp now bytes).2 id
          = some { session with
              status := .granted,
              token := some (generate_session_token bytes) })
    ∧ (bytes.length = 32 →
      (generate_session_token bytes).length = 64
      ∧ ∀ c ∈ (generate_session_token bytes).toList, c ∈ hexCharList) := by
  refine ⟨?_, ?_, ?_, ?_, ?_⟩
  · intro hnp
    simp [grant_session_handler, hs, if_pos hnp]
  · intro hp hexp
    have hv : validate_otp session otp now = false := by
      simp only [validate_otp]
      by_cases h : session.otp ≠ otp
      · simp [h]
      · simp [h, if_pos hexp]
    simp [grant_session_handler, hs, hp, hv, if_pos hexp]
  · intro hp hexp hotp
    have hv : validate_otp session otp now = false := by
      have : session.otp ≠ otp := fun h => hotp h.symm
      simp [validate_otp, this]
    simp [grant_session_handler, hs, hp, hv, hexp]
  · intro hp hexp hotp
    have hv : validate_otp session otp now = true := by
      simp [validate_otp, hotp.symm, hexp]
    constructor
    · simp [grant_session_handler, hs, hp, hv]
    · simp [grant_session_handler, hs, hp, hv, mapUpdate]
  · intro hb
    refine ⟨?_, generate_session_token_hex bytes⟩
    rw [generate_session_token_length, hb]

/-- C2 witness data: a live Pending session granted with the right otp. -/
def c2LiveStore : String → Option Session :=
  mapUpdate mapEmpty "sess-1" c2Session

theorem c2_grant_check_order_witness :
    c2LiveStore "sess-1" = some c2Session
    ∧ ((grant_session_handler c2LiveStore "sess-1" "00000000" 200 []).1 = .gone
       ∧ (grant_session_handler c2LiveStore "sess-1" "00000000" 200 []).2 = c2LiveStore) :=
  ⟨by decide,
   (c2_grant_check_order c2LiveStore "sess-1" "00000000" 200 [] c2Session
      (by decide)).2.1 (by decide) (by decide)⟩

/-- Response of the status endpoint, from `struct SessionStatusResponse`. -/
structure SessionStatusResponse where
  id : String
  status : SessionStatus
  token : Option String
deriving Repr, DecidableEq

/-- Embeds `get_session_status_handler` from `routes.rs`: a read-only snapshot;
the reported status is Expired when the stored one is Pending and past
expiry; the token is attached only when the reported status is Granted.
The handler only calls `SessionStore::get` (which clones), so the store
component is returned unchanged, exactly as in the source. -/
def get_session_status_handler (store : String → Option Session)
    (id : String) (now : Int) :
    Except String SessionStatusResponse × (String → Option Session) :=
  match store id with
  | some session =>
    let status := if session.status = .pending ∧ now > session.expires_at
      then SessionStatus.expired else session.status
    let token := if status = .granted then session.token else none
    (.ok ⟨session.id, status, token⟩, store)
  | none => (.error "Session not found", store)

/-- C8: reading a session status returns a snapshot whose status is
replaced (differs from the stored one) exactly when the stored status is
Pending and now > expires_at — and then it reads Expired; the token is
present only when the effective status is Granted (and then it is the
stored token); and the stored map is entirely unchanged, so the stored
status stays Pending — the record can only be removed by the janitor. -/
theorem c8_status_snapshot (store : String → Option Session)
    (id : String) (now : Int) (session : Session)
    (hs : store id = some session) :
    (get_session_status_handler store id now).2 = store
    ∧ (∃ resp, (get_session_status_handler store id now).1 = .ok resp
        ∧ (resp.status ≠ session.status
            ↔ (session.status = .pending ∧ now > session.expires_at))
        ∧ (session.status = .pending → now > session.expires_at →
            resp.status = .expired ∧ resp.token = none)
        ∧ (resp.token ≠ none → resp.status = .granted)
        ∧ (resp.status = .granted → resp.token = session.token)
        ∧ resp.id = session.id) := by
  by_cases hcond : session.status = .pending ∧ now > session.expires_at
  · refine ⟨by simp [get_session_status_handler, hs], ?_⟩
    refine ⟨⟨session.id, .expired, none⟩, ?_, ?_, ?_, ?_, ?_, rfl⟩
    · simp [get_session_status_handler, hs, hcond.1, hcond.2]
    · constructor
      · intro _
        exact hcond
      · intro _
        rw [hcond.1]
        simp
    · intro _ _
      exact ⟨rfl, rfl⟩
    · intro h
      exact absurd rfl h
    · intro h
      simp at h
  · refine ⟨by simp [get_session_status_handler, hs], ?_⟩
    refine ⟨⟨session.id,
             session.status,
             if session.status = .granted then session.token else none⟩,
            ?_, ?_, ?_, ?_, ?_, rfl⟩
    · simp [get_session_status_handler, hs, if_neg hcond]
    · simp [hcond]
    · intro h1 h2
      exact absurd ⟨h1, h2⟩ hcond
    · intro h
      by_cases hg : session.status = SessionStatus.granted
      · exact hg
      · exact absurd (by simp [hg]) h
    · intro h
      simp only at h
      simp [h]

/-- C8 witness data: a Granted session past its expiry. -/
def c8Session : Session :=
  { id := "sess-8", otp := "11112222", hostname := "host-b",
    status := .granted, token := some "tok", created_at := 0,
    expires_at := 100 }

/-- C8 witness store. -/
def c8Store : String → Option Session :=
  mapUpdate mapEmpty "sess-8" c8Session

theorem c8_status_snapshot_witness :
    c8Store "sess-8" = some c8Session
    ∧ (get_session_status_handler c8Store "sess-8" 200).2 = c8Store :=
  ⟨by decide,
   (c8_status_snapshot c8Store "sess-8" 200 c8Session (by decide)).1⟩

/-! ## Voice sessions (`voice_session.rs`)

The `oneshot::Sender<String>` endpoints held in the waiter table are
embedded as `Nat` tokens drawn from a global counter; a send on a waiter
is recorded as a delivery pair (token, message).  The store operations
below mirror `VoiceSessionStore` method by method. -/

/-- From `enum VoiceSessionState`. -/
inductive VoiceSessionState where
  | accumulating
  | triggered
  | responseReady
deriving Repr, DecidableEq

/-- From `struct VoiceSession`; `request_count` is the `u32` counter,
reduced mod `2 ^ 32` on increment. -/
structure VoiceSession where
  session_id : String
  atem_id : String
  channel : String
  state : VoiceSessionState
  buffer : List String
  response : Option String
  created_at : Int
  last_activity : Int
  request_count : Nat
deriving Repr, DecidableEq

/-- Embeds `VoiceSession::new`. -/
def VoiceSession.new (session_id atem_id channel : String) (now : Int) :
    VoiceSession :=
  { session_id := session_id, atem_id := atem_id, channel := channel,
    state := .accumulating, buffer := [], response := none,
    created_at := now, last_activity := now, request_count := 0 }

/-- Embeds `VoiceSession::add_transcription`: push onto the buffer, touch
`last_activity`. -/
def VoiceSession.add_transcription (s : VoiceSession) (text : String)
    (now : Int) : VoiceSession :=
  { s with buffer := s.buffer ++ [text], last_activity := now }

/-- Embeds `VoiceSession::get_accumulated_text`: `buffer.join(" ")`. -/
def VoiceSession.get_accumulated_text (s : VoiceSession) : String :=
  String.intercalate " " s.buffer

/-- Embeds `VoiceSession::trigger`: unconditionally set state = Triggered (the
source has no check of the current state). -/
def VoiceSession.trigger (s : VoiceSession) (now : Int) : VoiceSession :=
  { s with state := .triggered, last_activity := now }

/-- Embeds `VoiceSession::set_response`: record the response and set
state = ResponseReady, from any state. -/
def VoiceSession.set_response (s : VoiceSession) (response : String)
    (now : Int) : VoiceSession :=
  { s with
    response := some response,
    state := .responseReady,
    last_activity := now }

/-- Embeds `VoiceSession::increment_requests`. -/
def VoiceSession.increment_requests (s : VoiceSession) : VoiceSession :=
  { s with request_count := (s.request_count + 1) % 2 ^ 32 }

/-- Embeds `VoiceSessionStore`: the sessions map, the waiter table, and the
global supply of fresh waiter tokens. -/
structure VoiceStore where
  sessions : String → Option VoiceSession
  waiters : String → Option (List Nat)
  next_waiter : Nat

/-- The store as built by `VoiceSessionStore::new`. -/
def VoiceStore.empty : VoiceStore :=
  { sessions := mapEmpty, waiters := mapEmpty, next_waiter := 0 }

/-- Embeds `VoiceSessionStore::create`. -/
def VoiceStore.create (st : VoiceStore) (session_id atem_id channel : String)
    (now : Int) : VoiceStore :=
  { st with
    sessions :=
      mapUpdate st.sessions session_id
        (VoiceSession.new session_id atem_id channel now) }

/-- Embeds `VoiceSessionStore::get` (clones, i.e. a pure read). -/
def VoiceStore.get (st : VoiceStore) (session_id : String) :
    Option VoiceSession :=
  st.sessions session_id

/-- Embeds `VoiceSessionStore::add_transcription`: no-op returning `None` when
the session is absent. -/
def VoiceStore.add_transcription (st : VoiceStore) (session_id text : String)
    (now : Int) : Option Unit × VoiceStore :=
  match st.sessions session_id with
  | some s =>
    (some (),
     { st with
       sessions :=
         mapUpdate st.sessions session_id (s.add_transcription text now) })
  | none => (none, st)

/-- Embeds `VoiceSessionStore::trigger`: mark triggered, then return the
accumulated text of the (unchanged) buffer. -/
def VoiceStore.trigger (st : VoiceStore) (session_id : String) (now : Int) :
    Option String × VoiceStore :=
  match st.sessions session_id with
  | some s =>
    (some (s.trigger now).get_accumulated_text,
     { st with
       sessions := mapUpdate st.sessions session_id (s.trigger now) })
  | none => (none, st)

/-- Embeds `VoiceSessionStore::set_response`: update the session if present
(else return `None` at once, touching nothing); then take the waiter
list out of the table and send the response to every waiter.  The third
component is the list of deliveries (waiter token, message). -/
def VoiceStore.set_response (st : VoiceStore) (session_id response : String)
    (now : Int) : Option Unit × VoiceStore × List (Nat × String) :=
  match st.sessions session_id with
  | none => (none, st, [])
  | some s =>
    let st1 :=
      { st with
        sessions :=
          mapUpdate st.sessions session_id (s.set_response response now) }
    match st1.waiters session_id with
    | none => (some (), st1, [])
    | some ws =>
      (some (), { st1 with waiters := mapRemove st1.waiters session_id },
       ws.map (fun w => (w, response)))

/-- Embeds `VoiceSessionStore::register_waiter`: always succeeds, for any id
(`entry(session_id).or_insert_with(Vec::new).push(tx)`); returns the
fresh waiter token. -/
def VoiceStore.register_waiter (st : VoiceStore) (session_id : String) :
    Nat × VoiceStore :=
  (st.next_waiter,
   { st with
     waiters := mapUpdate st.waiters session_id
       ((st.waiters session_id).getD [] ++ [st.next_waiter]),
     next_waiter := st.next_waiter + 1 })

/-- Embeds `VoiceSessionStore::delete`: removes the sessions entry only — the
waiter table is not touched. -/
def VoiceStore.delete (st : VoiceStore) (session_id : String) : VoiceStore :=
  { st with sessions := mapRemove st.sessions session_id }

/-! ### C3: state machine shape -/

/-- The operations that mutate one voice session record. -/
inductive SessionOp where
  | addTranscription (text : String) (now : Int)
  | triggerOp (now : Int)
  | setResponseOp (response : String) (now : Int)
  | incrementRequests
deriving Repr, DecidableEq

/-- Apply one mutation to a session record. -/
def applySessionOp (s : VoiceSession) (op : SessionOp) : VoiceSession :=
  match op with
  | .addTranscription text now => s.add_transcription text now
  | .triggerOp now => s.trigger now
  | .setResponseOp response now => s.set_response response now
  | .incrementRequests => s.increment_requests

/-- Apply a sequence of mutations to a session record. -/
def applySessionOps (s : VoiceSession) (ops : List SessionOp) : VoiceSession :=
  ops.foldl applySessionOp s

/-- The C3 counterexample session: fresh, then `set_response`, then
`trigger` — at store level (cited `VoiceSessionStore::trigger`). -/
def c3Store : VoiceStore :=
  (((VoiceStore.empty.create "v3" "a3" "ch" 0).set_response "v3" "answer" 1).2.1.trigger
    "v3" 2).2

/-- C3 counterexample: `trigger` on a session that has reached
ResponseReady moves the state BACK to Triggered, and the session then
holds state = Triggered with response ≠ None — refuting both the
monotonicity clause and the `response = None while Triggered` clause. -/
theorem c3_counterexample_trigger_regresses :
    (((VoiceSession.new "v3" "a3" "ch" 0).set_response "answer" 1).state
        = VoiceSessionState.responseReady)
    ∧ ((((VoiceSession.new "v3" "a3" "ch" 0).set_response "answer" 1).trigger 2).state
        = VoiceSessionState.triggered)
    ∧ ((((VoiceSession.new "v3" "a3" "ch" 0).set_response "answer" 1).trigger 2).response
        = some "answer")
    ∧ (c3Store.sessions "v3").map VoiceSession.state = some .triggered
    ∧ (c3Store.sessions "v3").map VoiceSession.response = some (some "answer") := by
  refine ⟨rfl, rfl, rfl, ?_, ?_⟩
  · decide
  · decide

theorem applySessionOps_accumulating_response (ops : List SessionOp)
    (s : VoiceSession)
    (h : s.state = .accumulating → s.response = none) :
    (applySessionOps s ops).state = .accumulating →
      (applySessionOps s ops).response = none := by
  induction ops generalizing s with
  | nil => exact h
  | cons op rest ih =>
    have hstep : applySessionOps s (op :: rest)
        = applySessionOps (applySessionOp s op) rest := rfl
    rw [hstep]
    apply ih
    cases op with
    | addTranscription text now =>
      intro hst
      exact h hst
    | triggerOp now =>
      intro hst
      cases hst
    | setResponseOp response now =>
      intro hst
      cases hst
    | incrementRequests =>
      intro hst
      exact h hst

/-- C3 (amended): the state machine is NOT monotonic with `set_response`
as the only exception — `trigger` also acts from any state, so it moves a
ResponseReady session back to Triggered (see the counterexample); what
does hold: `add_transcription` and `increment_requests` never change the
state, `trigger` always yields Triggered, `set_response` always yields
ResponseReady, and `response = None` is guaranteed while the state is
Accumulating (for every operation sequence from a fresh session); a
Triggered session may hold a response, namely after such a regression. -/
theorem c3_state_machine (sid aid ch : String) (t0 : Int)
    (ops : List SessionOp) :
    ((applySessionOps (VoiceSession.new sid aid ch t0) ops).state
        = .accumulating →
      (applySessionOps (VoiceSession.new sid aid ch t0) ops).response = none)
    ∧ (∀ s : VoiceSession, ∀ now, (s.trigger now).state = .triggered)
    ∧ (∀ s : VoiceSession, ∀ x now,
        (s.set_response x now).state = .responseReady)
    ∧ (∀ s : VoiceSession, ∀ x now,
        (s.add_transcription x now).state = s.state)
    ∧ (∀ s : VoiceSession, s.increment_requests.state = s.state) :=
  ⟨applySessionOps_accumulating_response ops _ (fun _ => rfl),
   fun _ _ => rfl, fun _ _ _ => rfl, fun _ _ _ => rfl, fun _ => rfl⟩

theorem c3_state_machine_witness :
    (applySessionOps (VoiceSession.new "v" "a" "c" 0)
      [.addTranscription "hi" 1]).state = .accumulating
    ∧ (applySessionOps (VoiceSession.new "v" "a" "c" 0)
      [.addTranscription "hi" 1]).response = none :=
  ⟨by decide,
   (c3_state_machine "v" "a" "c" 0 [.addTranscription "hi" 1]).1 (by decide)⟩

/-! ### C4: broadcast fan-out of `set_response` -/

/-- C4: `set_response` on an existing session with M registered waiters
delivers the same value x to every one of the M waiters, leaves the
session in state ResponseReady with cached response x, clears the waiter
table entry in that same call, and a subsequent `get` (a pure read)
returns x — until `delete` removes the session. -/
theorem c4_set_response_broadcast (st : VoiceStore) (sid x : String)
    (s : VoiceSession) (ws : List Nat) (now : Int)
    (hs : st.sessions sid = some s) (hw : st.waiters sid = some ws) :
    (st.set_response sid x now).1 = some ()
    ∧ (st.set_response sid x now).2.2 = ws.map (fun w => (w, x))
    ∧ (st.set_response sid x now).2.1.get sid = some (s.set_response x now)
    ∧ (s.set_response x now).state = .responseReady
    ∧ (s.set_response x now).response = some x
    ∧ (st.set_response sid x now).2.1.waiters sid = none
    ∧ ((st.set_response sid x now).2.1.delete sid).get sid = none := by
  refine ⟨?_, ?_, ?_, rfl, rfl, ?_, ?_⟩
  · simp [VoiceStore.set_response, hs, hw]
  · simp [VoiceStore.set_response, hs, hw]
  · simp [VoiceStore.set_response, hs, hw, VoiceStore.get, mapUpdate]
  · simp [VoiceStore.set_response, hs, hw, mapRemove]
  · simp [VoiceStore.set_response, hs, hw, VoiceStore.delete, VoiceStore.get,
      mapRemove]

/-- C4 witness store: a fresh session with two registered waiters. -/
def c4Store : VoiceStore :=
  (((VoiceStore.empty.create "v4" "a4" "ch" 0).register_waiter "v4").2.register_waiter
    "v4").2

theorem c4_set_response_broadcast_witness :
    c4Store.sessions "v4" = some (VoiceSession.new "v4" "a4" "ch" 0)
    ∧ c4Store.waiters "v4" = some [0, 1]
    ∧ (c4Store.set_response "v4" "hello" 5).2.2 = [(0, "hello"), (1, "hello")] :=
  ⟨by decide, by decide,
   (c4_set_response_broadcast c4Store "v4" "hello"
      (VoiceSession.new "v4" "a4" "ch" 0) [0, 1] 5 (by decide) (by decide)).2.1⟩

/-! ### C9: trigger returns the space-joined buffer -/

/-- K successive `add_transcription` calls on one session id. -/
def addAll (st : VoiceStore) (session_id : String) (texts : List String)
    (now : Int) : VoiceStore :=
  match texts with
  | [] => st
  | t :: rest => addAll (st.add_transcription session_id t now).2 session_id rest now

theorem addAll_sessions (texts : List String) (st : VoiceStore)
    (sid : String) (now : Int) (s : VoiceSession)
    (hs : st.sessions sid = some s) :
    ∃ s2, (addAll st sid texts now).sessions sid = some s2
      ∧ s2.buffer = s.buffer ++ texts
      ∧ s2.state = s.state := by
  induction texts generalizing st s with
  | nil =>
    exact ⟨s, by simpa [addAll] using hs, by simp, rfl⟩
  | cons t rest ih =>
    have hstep : (st.add_transcription sid t now).2.sessions sid
        = some (s.add_transcription t now) := by
      simp [VoiceStore.add_transcription, hs, mapUpdate]
    obtain ⟨s2, h1, h2, h3⟩ := ih (st.add_transcription sid t now).2
      (s.add_transcription t now) hstep
    refine ⟨s2, by simpa [addAll] using h1, ?_, ?_⟩
    · rw [h2]
      simp [VoiceSession.add_transcription]
    · rw [h3]
      rfl

/-- C9: if a session whose buffer is empty receives K transcriptions
t1, ..., tK, then `trigger` returns the buffer entries joined with a
single space (`String.intercalate " "`, the embedding of
`buffer.join(" ")` — the empty string for K = 0), sets the state to
Triggered, and leaves the buffer itself unchanged (still exactly
t1, ..., tK). -/
theorem c9_trigger_accumulated_text (st : VoiceStore) (sid : String)
    (s : VoiceSession) (texts : List String) (now now2 : Int)
    (hs : st.sessions sid = some s) (hbuf : s.buffer = []) :
    ((addAll st sid texts now).trigger sid now2).1
        = some (String.intercalate " " texts)
    ∧ (texts = [] → ((addAll st sid texts now).trigger sid now2).1 = some "")
    ∧ (∃ s2, ((addAll st sid texts now).trigger sid now2).2.sessions sid = some s2
        ∧ s2.state = .triggered
        ∧ s2.buffer = texts) := by
  obtain ⟨s1, h1, h2, _⟩ := addAll_sessions texts st sid now s hs
  have hb1 : s1.buffer = texts := by
    rw [h2, hbuf]
    simp
  have hmain : ((addAll st sid texts now).trigger sid now2).1
      = some (String.intercalate " " texts) := by
    simp [VoiceStore.trigger, h1, VoiceSession.get_accumulated_text,
      VoiceSession.trigger, hb1]
  refine ⟨hmain, ?_, ?_⟩
  · intro he
    rw [hmain, he]
    rfl
  · refine ⟨s1.trigger now2, ?_, rfl, ?_⟩
    · simp [VoiceStore.trigger, h1, mapUpdate]
    · simpa [VoiceSession.trigger] using hb1

/-- C9 witness store: a fresh session. -/
def c9Store : VoiceStore := VoiceStore.empty.create "v9" "a9" "ch" 0

theorem c9_trigger_accumulated_text_witness :
    c9Store.sessions "v9" = some (VoiceSession.new "v9" "a9" "ch" 0)
    ∧ (VoiceSession.new "v9" "a9" "ch" 0).buffer = []
    ∧ ((addAll c9Store "v9" ["hello", "wide", "world"] 1).trigger "v9" 2).1
        = some "hello wide world" :=
  ⟨by decide, rfl, by
    have h := (c9_trigger_accumulated_text c9Store "v9"
      (VoiceSession.new "v9" "a9" "ch" 0) ["hello", "wide", "world"] 1 2
      (by decide) rfl).1
    rw [h]
    rfl⟩

/-! ### C10: waiters registered under an absent session id -/

/-- Store-level operations, for whole-trace statements.  Each delivery in
a trace is recorded as (session id, waiter token, message). -/
inductive VoiceOp where
  | create (sid aid ch : String) (now : Int)
  | add (sid text : String) (now : Int)
  | trigger (sid : String) (now : Int)
  | setResponse (sid response : String) (now : Int)
  | registerWaiter (sid : String)
  | delete (sid : String)
deriving Repr, DecidableEq

/-- One store operation, with its (keyed) deliveries. -/
def voiceStep (st : VoiceStore) (op : VoiceOp) :
    VoiceStore × List (String × Nat × String) :=
  match op with
  | .create sid aid ch now => (st.create sid aid ch now, [])
  | .add sid text now => ((st.add_transcription sid text now).2, [])
  | .trigger sid now => ((st.trigger sid now).2, [])
  | .setResponse sid response now =>
    ((st.set_response sid response now).2.1,
     (st.set_response sid response now).2.2.map (fun p => (sid, p.1, p.2)))
  | .registerWaiter sid => ((st.register_waiter sid).2, [])
  | .delete sid => (st.delete sid, [])

/-- Run a trace of store operations, concatenating the deliveries. -/
def runVoice (st : VoiceStore) (ops : List VoiceOp) :
    VoiceStore × List (String × Nat × String) :=
  match ops with
  | [] => (st, [])
  | op :: rest =>
    ((runVoice (voiceStep st op).1 rest).1,
     (voiceStep st op).2 ++ (runVoice (voiceStep st op).1 rest).2)

/-- C10 counterexample: waiter 0 is registered under "s" while no session
"s" exists; after the session is (re)created, a subsequent `set_response`
DOES complete that stale waiter with its value — because the waiter-table
entry was never cleared — refuting "never completed by any subsequent
set_response". -/
theorem c10_counterexample_stale_waiter_completed :
    VoiceStore.empty.sessions "s" = none
    ∧ (runVoice VoiceStore.empty
        [.registerWaiter "s", .create "s" "a" "ch" 0, .setResponse "s" "x" 1]).2
      = [("s", 0, "x")] := by
  constructor
  · rfl
  · decide

theorem runVoice_absent_no_delivery (ops : List VoiceOp) (st : VoiceStore)
    (sid : String) (habs : st.sessions sid = none)
    (hnc : ∀ aid ch now, VoiceOp.create sid aid ch now ∉ ops) :
    (runVoice st ops).1.sessions sid = none
    ∧ ∀ w v, (sid, w, v) ∉ (runVoice st ops).2 := by
  induction ops generalizing st with
  | nil =>
    refine ⟨habs, ?_⟩
    intro w v h
    simp [runVoice] at h
  | cons op rest ih =>
    have hnc2 : ∀ aid ch now, VoiceOp.create sid aid ch now ∉ rest := by
      intro aid ch now h
      exact hnc aid ch now (List.mem_cons_of_mem _ h)
    have hstep : (voiceStep st op).1.sessions sid = none
        ∧ ∀ w v, (sid, w, v) ∉ (voiceStep st op).2 := by
      cases op with
      | create sid2 aid ch now =>
        have hne : sid2 ≠ sid := by
          intro h
          exact hnc aid ch now (h ▸ List.mem_cons_self _ _)
        refine ⟨?_, by intro w v h; simp [voiceStep] at h⟩
        simp [voiceStep, VoiceStore.create, mapUpdate,
          Ne.symm hne, habs]
      | add sid2 text now =>
        refine ⟨?_, by intro w v h; simp [voiceStep] at h⟩
        by_cases he : sid2 = sid
        · subst he
          simp [voiceStep, VoiceStore.add_transcription, habs]
        · simp only [voiceStep, VoiceStore.add_transcription]
          cases hc : st.sessions sid2 with
          | none => exact habs
          | some s => simpa [mapUpdate, Ne.symm he] using habs
      | trigger sid2 now =>
        refine ⟨?_, by intro w v h; simp [voiceStep] at h⟩
        by_cases he : sid2 = sid
        · subst he
          simp [voiceStep, VoiceStore.trigger, habs]
        · simp only [voiceStep, VoiceStore.trigger]
          cases hc : st.sessions sid2 with
          | none => exact habs
          | some s => simpa [mapUpdate, Ne.symm he] using habs
      | setResponse sid2 response now =>
        by_cases he : sid2 = sid
        · subst he
          constructor
          · simp [voiceStep, VoiceStore.set_response, habs]
          · intro w v h
            simp [voiceStep, VoiceStore.set_response, habs] at h
        · constructor
          · simp only [voiceStep, VoiceStore.set_response]
            cases hc : st.sessions sid2 with
            | none => exact habs
            | some s =>
              cases hw : st.waiters sid2 with
              | none => simpa [mapUpdate, Ne.symm he] using habs
              | some ws => simpa [mapUpdate, Ne.symm he] using habs
          · intro w v h
            simp only [voiceStep, List.mem_map] at h
            obtain ⟨p, _, hp⟩ := h
            exact he (congrArg Prod.fst hp)
      | registerWaiter sid2 =>
        refine ⟨?_, by intro w v h; simp [voiceStep] at h⟩
        simpa [voiceStep, VoiceStore.register_waiter] using habs
      | delete sid2 =>
        refine ⟨?_, by intro w v h; simp [voiceStep] at h⟩
        by_cases he : sid2 = sid
        · subst he
          simp [voiceStep, VoiceStore.delete, mapRemove]
        · simpa [voiceStep, VoiceStore.delete, mapRemove,
            Ne.symm he] using habs
    obtain ⟨iha, ihb⟩ := ih (voiceStep st op).1 hstep.1 hnc2
    refine ⟨by simpa [runVoice] using iha, ?_⟩
    intro w v h
    simp only [runVoice, List.mem_append] at h
    rcases h with h | h
    · exact hstep.2 w v h
    · exact ihb w v h

/-- C10 (amended): `register_waiter` succeeds for any id, appending a
fresh token to the (possibly absent) entry; for an id s absent from the
sessions map, `set_response(s, x)` returns None without delivering x to
any waiter and without touching the store — in particular the
waiter-table entry for s is NOT cleared; consequently, as long as no
session with id s is created, no later operation completes those waiters
(they would only observe their notifier dropped); but BECAUSE the entry
is not cleared, if a session with id s is created again, a subsequent
`set_response(s, x)` does deliver x to the stale waiters (see the
counterexample). -/
theorem c10_register_and_absent_set_response (st : VoiceStore)
    (sid x : String) (now : Int) (habs : st.sessions sid = none) :
    (∀ st2 : VoiceStore, ∀ sid2,
      (st2.register_waiter sid2).2.waiters sid2
        = some ((st2.waiters sid2).getD [] ++ [st2.next_waiter]))
    ∧ (st.set_response sid x now).1 = none
    ∧ (st.set_response sid x now).2.1 = st
    ∧ (st.set_response sid x now).2.2 = []
    ∧ (st.set_response sid x now).2.1.waiters sid = st.waiters sid
    ∧ (∀ ops : List VoiceOp, (∀ aid ch t, VoiceOp.create sid aid ch t ∉ ops) →
        ∀ w v, (sid, w, v) ∉ (runVoice st ops).2)
    ∧ (∀ aid ch t1 ws, st.waiters sid = some ws →
        ((st.create sid aid ch t1).set_response sid x now).2.2
          = ws.map (fun w => (w, x))) := by
  refine ⟨?_, ?_, ?_, ?_, ?_, ?_, ?_⟩
  · intro st2 sid2
    simp [VoiceStore.register_waiter, mapUpdate]
  · simp [VoiceStore.set_response, habs]
  · simp [VoiceStore.set_response, habs]
  · simp [VoiceStore.set_response, habs]
  · simp [VoiceStore.set_response, habs]
  · intro ops hnc w v
    exact (runVoice_absent_no_delivery ops st sid habs hnc).2 w v
  · intro aid ch t1 ws hw
    simp [VoiceStore.set_response, VoiceStore.create, mapUpdate, hw]

/-- C10 witness store: one stale waiter registered under the absent id
"w10". -/
def c10Store : VoiceStore := (VoiceStore.empty.register_waiter "w10").2

theorem c10_register_and_absent_set_response_witness :
    c10Store.sessions "w10" = none
    ∧ ((c10Store.set_response "w10" "x" 3).1 = none
       ∧ (c10Store.set_response "w10" "x" 3).2.1.waiters "w10"
           = c10Store.waiters "w10") :=
  ⟨by decide,
   ⟨(c10_register_and_absent_set_response c10Store "w10" "x" 3 (by decide)).2.1,
    (c10_register_and_absent_set_response c10Store "w10" "x" 3 (by decide)).2.2.2.2.1⟩⟩

/-! ## Pair rooms and the WebSocket relay (`relay.rs`)

The `mpsc::UnboundedSender<String>` sinks stored per role are embedded as
`Nat` connection tokens. -/

/-- A pair room, from `struct PairRoom`. -/
structure PairRoom where
  code : String
  hostname : String
  atem_tx : Option Nat
  astation_tx : Option Nat
  created_at : Int
deriving Repr, DecidableEq

/-- The pairing-code alphabet `CODE_CHARS` — no ambiguous characters
(0/O, 1/I/L excluded). -/
def CODE_CHARS : List Char := "ABCDEFGHJKMNPQRSTUVWXYZ23456789".toList

/-- Embeds `generate_pairing_code`: 8 indices drawn by the rng (explicit
argument), each selecting one alphabet character; the ASCII byte slices
`&s[..4]` / `&s[4..]` of `format!("{}-{}", ..)` are embedded as list
take/drop. -/
def generate_pairing_code (idx : List (Fin 31)) : String :=
  let chars := idx.map (fun i => CODE_CHARS.getD i.val 'A')
  String.mk (chars.take 4 ++ '-' :: chars.drop 4)

/-- Embeds `create_pair_handler`: build the room with both sinks `None` and
insert it under the generated code (`HashMap::insert` — replacing any
entry already stored under that code). -/
def create_pair_handler (rooms : String → Option PairRoom)
    (hostname : String) (idx : List (Fin 31)) (now : Int) :
    String × (String → Option PairRoom) :=
  let code := generate_pairing_code idx
  (code,
   mapUpdate rooms code
     { code := code, hostname := hostname, atem_tx := none,
       astation_tx := none, created_at := now })

/-- What `ws_handler` does before the upgrade: it only checks that the
room exists (404 otherwise) and then calls `ws.on_upgrade` — the role
string is never examined before the 101 handshake. -/
inductive WsUpgradeOutcome where
  | notFound
  | upgraded
deriving Repr, DecidableEq

/-- Embeds `ws_handler` from `relay.rs`: 404 when the room is unknown, else the
upgrade proceeds (for any role string). -/
def ws_handler (rooms : String → Option PairRoom) (role code : String) :
    WsUpgradeOutcome :=
  match rooms code with
  | none => .notFound
  | some _ => .upgraded

/-- The sink-registration step of `handle_ws` (run under the rooms write
lock after the upgrade): store this connection under its role; a role
other than "atem"/"astation" registers nothing and the function
returns. -/
def handle_ws_register (rooms : String → Option PairRoom)
    (code role : String) (tx : Nat) : String → Option PairRoom :=
  match rooms code with
  | none => rooms
  | some room =>
    if role = "atem" then
      mapUpdate rooms code { room with atem_tx := some tx }
    else if role = "astation" then
      mapUpdate rooms code { room with astation_tx := some tx }
    else rooms

/-- The room used in the C5 statements. -/
def c5Room : PairRoom :=
  { code := "ABCD-EFGH", hostname := "host-5", atem_tx := none,
    astation_tx := none, created_at := 0 }

/-- C5 counterexample: with an existing room, a request whose role is
outside {atem, astation} is NOT rejected with HTTP 400 — `ws_handler`
accepts the upgrade (101) without ever looking at the role; only after
the upgrade does `handle_ws` bail out, registering no sink (the room is
left exactly as it was). -/
theorem c5_counterexample_bad_role_upgrades :
    (mapUpdate mapEmpty "ABCD-EFGH" c5Room) "ABCD-EFGH" = some c5Room
    ∧ "bogus" ≠ "atem"
    ∧ "bogus" ≠ "astation"
    ∧ ws_handler (mapUpdate mapEmpty "ABCD-EFGH" c5Room) "bogus" "ABCD-EFGH"
        = .upgraded
    ∧ ws_handler (mapUpdate mapEmpty "ABCD-EFGH" c5Room) "bogus" "ABCD-EFGH"
        ≠ .notFound
    ∧ handle_ws_register (mapUpdate mapEmpty "ABCD-EFGH" c5Room) "ABCD-EFGH"
        "bogus" 0 "ABCD-EFGH" = some c5Room := by
  refine ⟨by decide, by decide, by decide, by decide, by decide, by decide⟩

/-- C5 (amended): an unknown room code rejects the upgrade with HTTP 404
before the handshake (and `handle_ws` never runs, so no sink is
registered anywhere); an unknown role, however, is NOT rejected with 400:
the 101 upgrade completes, and the server then closes the connection
without registering a sink in any room — every room entry is left
unchanged. -/
theorem c5_ws_handler_checks (rooms : String → Option PairRoom)
    (role code : String) (tx : Nat) :
    (rooms code = none → ws_handler rooms role code = .notFound)
    ∧ (∀ r, rooms code = some r → ws_handler rooms role code = .upgraded)
    ∧ (role ≠ "atem" → role ≠ "astation" →
        ∀ c, handle_ws_register rooms code role tx c = rooms c) := by
  refine ⟨?_, ?_, ?_⟩
  · intro h
    simp [ws_handler, h]
  · intro r h
    simp [ws_handler, h]
  · intro h1 h2 c
    simp only [handle_ws_register]
    cases hc : rooms code with
    | none => rfl
    | some room => simp [h1, h2]

theorem c5_ws_handler_checks_witness :
    mapEmpty (β := PairRoom) "NONE-CODE" = none
    ∧ ws_handler (mapEmpty (β := PairRoom)) "atem" "NONE-CODE" = .notFound :=
  ⟨rfl,
   (c5_ws_handler_checks (mapEmpty (β := PairRoom)) "atem" "NONE-CODE" 0).1 rfl⟩

/-- The pre-existing room overwritten in the C6 counterexample. -/
def c6OldRoom : PairRoom :=
  { code := "ABCD-EFGH", hostname := "old-host", atem_tx := some 7,
    astation_tx := none, created_at := 0 }

/-- C6 counterexample: when the freshly drawn code collides with the code
of an existing room, `create_pair_handler` does NOT retry — the insert
replaces the existing room (here: a room with a live host sink is
silently lost). -/
theorem c6_counterexample_collision_overwrites :
    (create_pair_handler (mapUpdate mapEmpty "ABCD-EFGH" c6OldRoom)
        "new-host" [0, 1, 2, 3, 4, 5, 6, 7] 9).1 = "ABCD-EFGH"
    ∧ (mapUpdate mapEmpty "ABCD-EFGH" c6OldRoom) "ABCD-EFGH" = some c6OldRoom
    ∧ (create_pair_handler (mapUpdate mapEmpty "ABCD-EFGH" c6OldRoom)
        "new-host" [0, 1, 2, 3, 4, 5, 6, 7] 9).2 "ABCD-EFGH"
      = some { code := "ABCD-EFGH", hostname := "new-host", atem_tx := none,
               astation_tx := none, created_at := 9 }
    ∧ (create_pair_handler (mapUpdate mapEmpty "ABCD-EFGH" c6OldRoom)
        "new-host" [0, 1, 2, 3, 4, 5, 6, 7] 9).2 "ABCD-EFGH"
      ≠ some c6OldRoom := by
  refine ⟨by decide, by decide, by decide, by decide⟩

theorem getD_CODE_CHARS_mem (i : Fin 31) : CODE_CHARS.getD i.val 'A' ∈ CODE_CHARS := by
  have : ∀ j : Fin 31, CODE_CHARS.getD j.val 'A' ∈ CODE_CHARS := by decide
  exact this i

/-- C6 (amended): the generated code draws 8 symbols from the 31-symbol
unambiguous alphabet and is formatted XXXX-XXXX (4 alphabet characters, a
hyphen, 4 alphabet characters — 9 characters in all), and the new room is
inserted under it with both channels null; but on a collision with an
existing room the handler does NOT retry: the insert replaces the stored
room (see the counterexample), so creating a pair room CAN overwrite an
existing one. -/
theorem c6_create_pair_format (rooms : String → Option PairRoom)
    (hostname : String) (idx : List (Fin 31)) (now : Int)
    (hlen : idx.length = 8) :
    CODE_CHARS.length = 31
    ∧ (∃ l1 l2,
        (create_pair_handler rooms hostname idx now).1.toList = l1 ++ '-' :: l2
        ∧ l1.length = 4 ∧ l2.length = 4
        ∧ (∀ c ∈ l1, c ∈ CODE_CHARS) ∧ (∀ c ∈ l2, c ∈ CODE_CHARS))
    ∧ (create_pair_handler rooms hostname idx now).1.length = 9
    ∧ (create_pair_handler rooms hostname idx now).2
        (create_pair_handler rooms hostname idx now).1
      = some { code := (create_pair_handler rooms hostname idx now).1,
               hostname := hostname, atem_tx := none, astation_tx := none,
               created_at := now } := by
  have hchars : (idx.map (fun i => CODE_CHARS.getD i.val 'A')).length = 8 := by
    simp [hlen]
  have hmemchars : ∀ c ∈ idx.map (fun i => CODE_CHARS.getD i.val 'A'),
      c ∈ CODE_CHARS := by
    intro c hc
    rw [List.mem_map] at hc
    obtain ⟨i, _, rfl⟩ := hc
    exact getD_CODE_CHARS_mem i
  refine ⟨by decide, ?_, ?_, ?_⟩
  · refine ⟨(idx.map (fun i => CODE_CHARS.getD i.val 'A')).take 4,
            (idx.map (fun i => CODE_CHARS.getD i.val 'A')).drop 4,
            ?_, ?_, ?_, ?_, ?_⟩
    · simp [create_pair_handler, generate_pairing_code]
    · rw [List.length_take, hchars]
      omega
    · rw [List.length_drop, hchars]
    · intro c hc
      exact hmemchars c (List.take_subset _ _ hc)
    · intro c hc
      exact hmemchars c (List.drop_subset _ _ hc)
  · show (String.mk _).length = 9
    simp only [String.length, List.length_append, List.length_take,
      List.length_drop, List.length_cons, List.length_map, hlen]
    omega
  · simp [create_pair_handler, mapUpdate]

theorem c6_create_pair_format_witness :
    ([0, 1, 2, 3, 4, 5, 6, 7] : List (Fin 31)).length = 8
    ∧ (create_pair_handler mapEmpty "host-6" [0, 1, 2, 3, 4, 5, 6, 7] 0).1.length
        = 9 :=
  ⟨by decide,
   (c6_create_pair_format mapEmpty "host-6" [0, 1, 2, 3, 4, 5, 6, 7] 0
      (by decide)).2.2.1⟩

/-! ## RTC session URLs (`create_rtc_session_handler`)

The repository holds two versions of this handler: the api-server one
builds the url from a hard-coded base, the relay-server one derives it
from the request headers. -/

/-- Prefix test, embedding Rust `str::starts_with` (ASCII strings). -/
def startsWithStr (s pat : String) : Bool :=
  decide (pat.toList <+: s.toList)

/-- Embeds `SESSION_BASE_URL` from `src/api-server/src/rtc_session.rs`. -/
def SESSION_BASE_URL : String := "https://station.agora.build/session"

/-- The url built by the api-server `create_rtc_session_handler`:
`format!("{}/{}", SESSION_BASE_URL, id)` — the request headers are not
consulted. -/
def apiServerSessionUrl (id : String) : String :=
  SESSION_BASE_URL ++ "/" ++ id

/-- The host classes the relay-server handler treats as plain-http:
`host.contains("localhost") || host.starts_with("127.0.0.1") ||
host.starts_with("192.168.") || host.starts_with("10.")`. -/
def relayLocalHostTest (host : String) : Bool :=
  containsSubstring host "localhost" || startsWithStr host "127.0.0.1"
    || startsWithStr host "192.168." || startsWithStr host "10."

/-- The url built by the relay-server `create_rtc_session_handler`:
host from the `Host` header (default "localhost:8080"), protocol from
`X-Forwarded-Proto` when present, else http for the local host classes
and https otherwise; then `format!("{}://{}/session/{}", ..)`. -/
def relayServerSessionUrl (hostHeader fwdProto : Option String)
    (id : String) : String :=
  let host := hostHeader.getD "localhost:8080"
  let protocol :=
    match fwdProto with
    | some p => p
    | none => if relayLocalHostTest host then "http" else "https"
  protocol ++ "://" ++ host ++ "/session/" ++ id

/-- Modelled from the spec: the url format the claim asserts,
`{proto}://{host}/session/{id}` with proto from `X-Forwarded-Proto` when
present, else http for a loopback/private host and https otherwise — the
loopback-or-private test instantiated to the host classes the code
distinguishes. -/
def claimedSessionUrl (host : String) (fwdProto : Option String)
    (id : String) : String :=
  (match fwdProto with
   | some p => p
   | none => if relayLocalHostTest host then "http" else "https")
    ++ "://" ++ host ++ "/session/" ++ id

/-- C7 counterexample: the api-server handler (the cited code) does not
build the url from the request host at all — with Host "example.com" and
no X-Forwarded-Proto, the claim calls for
"https://example.com/session/abc", but the handler always produces the
fixed "https://station.agora.build/session/abc". -/
theorem c7_counterexample_api_server_fixed_url :
    apiServerSessionUrl "abc" = "https://station.agora.build/session/abc"
    ∧ claimedSessionUrl "example.com" none "abc"
        = "https://example.com/session/abc"
    ∧ apiServerSessionUrl "abc" ≠ claimedSessionUrl "example.com" none "abc" := by
  refine ⟨by decide, by decide, by decide⟩

/-- C7 (amended): the relay-server handler builds exactly the claimed url
`{proto}://{host}/session/{id}` — proto from X-Forwarded-Proto when the
header is present, else http when the host contains "localhost" or starts
with "127.0.0.1", "192.168." or "10.", and https otherwise; a missing
Host header defaults to "localhost:8080".  The api-server handler instead
returns the fixed `https://station.agora.build/session/{id}`, ignoring
the request headers. -/
theorem c7_session_url_formats (host : String) (fwdProto : Option String)
    (id : String) :
    relayServerSessionUrl (some host) fwdProto id
        = claimedSessionUrl host fwdProto id
    ∧ (∀ p, relayServerSessionUrl (some host) (some p) id
        = p ++ "://" ++ host ++ "/session/" ++ id)
    ∧ (fwdProto = none → relayLocalHostTest host = true →
        relayServerSessionUrl (some host) fwdProto id
          = "http" ++ "://" ++ host ++ "/session/" ++ id)
    ∧ (fwdProto = none → relayLocalHostTest host = false →
        relayServerSessionUrl (some host) fwdProto id
          = "https" ++ "://" ++ host ++ "/session/" ++ id)
    ∧ relayServerSessionUrl none fwdProto id
        = claimedSessionUrl "localhost:8080" fwdProto id
    ∧ apiServerSessionUrl id = SESSION_BASE_URL ++ "/" ++ id := by
  refine ⟨rfl, fun p => rfl, ?_, ?_, rfl, rfl⟩
  · intro hf hl
    subst hf
    simp [relayServerSessionUrl, hl]
  · intro hf hl
    subst hf
    simp [relayServerSessionUrl, hl]

theorem c7_session_url_formats_witness :
    relayLocalHostTest "192.168.1.20:8080" = true
    ∧ relayServerSessionUrl (some "192.168.1.20:8080") none "abc"
        = "http" ++ "://" ++ "192.168.1.20:8080" ++ "/session/" ++ "abc" :=
  ⟨by decide,
   (c7_session_url_formats "192.168.1.20:8080" none "abc").2.2.1 rfl (by decide)⟩

end Astation
